import Mathlib

/-!
Verification development for the ESG copilot session engine.

The TypeScript sources are shallowly embedded:
  * JS strings become Lean `String` (char-list based helpers mirror
    `includes`, `startsWith`, `toLowerCase`, `split`).
  * The in-memory `MemStorage` maps become association lists kept in
    insertion order, matching JS `Map` iteration order; `randomUUID`
    becomes a deterministic fresh-id counter.
  * Wall-clock reads (`new Date()`, `Date.now()`) become explicit `Nat`
    parameters, one per read, in call order; the real clock only
    guarantees that successive reads are non-decreasing, so theorems
    that depend on time carry that monotonicity as a hypothesis.
  * `async` sequencing is direct state passing (single-threaded runs).
  * The mock LLM response generator is passed in as an opaque capability
    parameter, matching its role as an external collaborator; its
    floating-point confidence is abstracted to a `Nat` score, which no
    verified property inspects.
-/

/-- Model of JS `pat` being a prefix of a char list. -/
def leadsWith : List Char → List Char → Bool
  | [], _ => true
  | _ :: _, [] => false
  | a :: as, b :: bs => a == b && leadsWith as bs

/-- Model of JS `String.prototype.includes` on char lists. -/
def appearsIn (pat : List Char) : List Char → Bool
  | [] => leadsWith pat []
  | h :: t => leadsWith pat (h :: t) || appearsIn pat t

/-- Model of JS `s.includes(pat)`. -/
def strIncludes (s pat : String) : Bool :=
  appearsIn pat.data s.data

/-- Model of JS `s.startsWith(pat)`. -/
def strStartsWith (s pat : String) : Bool :=
  leadsWith pat.data s.data

/-- Model of JS `s.toLowerCase()` (ASCII case folding). -/
def lowerStr (s : String) : String :=
  ⟨s.data.map Char.toLower⟩

/-- Model of JS `s.split(c)` on char lists: splits at every occurrence of
the single character `c`, keeping empty fragments, as JS does. -/
def splitChar (c : Char) : List Char → List (List Char)
  | [] => [[]]
  | a :: rest =>
    if a = c then
      [] :: splitChar c rest
    else
      match splitChar c rest with
      | [] => [[a]]
      | w :: ws => (a :: w) :: ws

/- ===== Data model (shared/schema.ts) ===== -/

/-- `SessionContext` jsonb blob: page state supplied by the client. -/
structure SessionContext where
  page : Option String := none
  pageType : Option String := none
  entityIds : Option (List String) := none
  metricIds : Option (List String) := none
  reportId : Option String := none
  userAction : Option String := none
  userRole : Option String := none
deriving Repr, DecidableEq

/-- `ActionItem` attached to assistant messages. -/
structure ActionItem where
  type : String
  label : String
  url : Option String := none
deriving Repr, DecidableEq

/-- `MessageMetadata`: token/latency/cache info on assistant messages. -/
structure MessageMetadata where
  tokensUsed : Option Nat := none
  latencyMs : Option Nat := none
  cached : Option Bool := none
deriving Repr, DecidableEq

/-- A persisted chat session row (`chatSessions` table / `ChatSession`). -/
structure ChatSession where
  id : String
  userId : String
  organizationId : String
  createdAt : Nat
  lastActivity : Nat
  messageCount : Nat
  context : SessionContext
deriving Repr, DecidableEq

/-- A persisted chat message row (`chatMessages` table / `ChatMessage`). -/
structure ChatMessage where
  id : String
  sessionId : String
  role : String
  content : String
  intent : Option String
  confidence : Option Nat
  dataSources : Option (List String)
  suggestedPrompts : Option (List String)
  actions : Option (List ActionItem)
  metadata : Option MessageMetadata
  timestamp : Nat
deriving Repr, DecidableEq

/-- `InsertChatSession`: session payload without generated fields. -/
structure InsertChatSession where
  userId : String
  organizationId : String
  context : SessionContext
deriving Repr, DecidableEq

/-- `InsertChatMessage`: message payload without id/timestamp. -/
structure InsertChatMessage where
  sessionId : String
  role : String
  content : String
  intent : Option String := none
  confidence : Option Nat := none
  dataSources : Option (List String) := none
  suggestedPrompts : Option (List String) := none
  actions : Option (List ActionItem) := none
  metadata : Option MessageMetadata := none
deriving Repr, DecidableEq

/- ===== MemStorage (server/storage.ts) ===== -/

/-- State of `MemStorage`: the two maps the chat pipeline touches, kept as
association / plain lists in JS `Map` insertion order, plus the fresh-id
counter standing in for `randomUUID`. -/
structure Storage where
  chatSessions : List (String × ChatSession)
  chatMessages : List ChatMessage
  nextId : Nat
deriving Repr, DecidableEq

/-- The freshly constructed `MemStorage`. -/
def emptyStorage : Storage :=
  { chatSessions := [], chatMessages := [], nextId := 0 }

/-- Deterministic stand-in for `randomUUID`. -/
def uuid (n : Nat) : String :=
  "uuid-" ++ toString n

/-- First-match lookup in an association list (JS `Map.get`). -/
def lookupS (l : List (String × ChatSession)) (k : String) : Option ChatSession :=
  match l with
  | [] => none
  | (k2, v) :: rest => if k2 == k then some v else lookupS rest k

/-- JS `Map.set`: replace in place when the key is present (keeping its
insertion position), append otherwise. -/
def setSession (l : List (String × ChatSession)) (k : String) (v : ChatSession) :
    List (String × ChatSession) :=
  match l with
  | [] => [(k, v)]
  | (k2, v2) :: rest =>
    if k2 == k then (k2, v) :: rest else (k2, v2) :: setSession rest k v

/-- `MemStorage.getChatSession`. -/
def getChatSession (s : Storage) (id : String) : Option ChatSession :=
  lookupS s.chatSessions id

/-- `MemStorage.createChatSession`; `now` is the single `new Date()` read
used for both `createdAt` and `lastActivity`. -/
def createChatSession (s : Storage) (now : Nat) (ins : InsertChatSession) :
    ChatSession × Storage :=
  let id := uuid s.nextId
  let session : ChatSession :=
    { id := id
      userId := ins.userId
      organizationId := ins.organizationId
      createdAt := now
      lastActivity := now
      messageCount := 0
      context := ins.context }
  (session,
   { s with
      chatSessions := setSession s.chatSessions id session
      nextId := s.nextId + 1 })

/-- `MemStorage.updateSessionActivity`; `now` is its `new Date()` read.
Silently a no-op when the session is absent. -/
def updateSessionActivity (s : Storage) (now : Nat) (id : String) : Storage :=
  match lookupS s.chatSessions id with
  | none => s
  | some session =>
    { s with
       chatSessions :=
         setSession s.chatSessions id
           { session with lastActivity := now, messageCount := session.messageCount + 1 } }

/-- Stable insertion into a timestamp-sorted message list: an element is
placed before the first strictly-later element and after equal ones,
matching the stable JS `Array.prototype.sort` with an ascending
timestamp comparator. -/
def insertByTs (m : ChatMessage) : List ChatMessage → List ChatMessage
  | [] => [m]
  | h :: t => if m.timestamp ≤ h.timestamp then m :: h :: t else h :: insertByTs m t

/-- Stable sort of messages by ascending timestamp. -/
def sortByTs : List ChatMessage → List ChatMessage
  | [] => []
  | h :: t => insertByTs h (sortByTs t)

/-- `MemStorage.getMessagesBySessionId`: filter the map values (insertion
order) to the session, then sort ascending by timestamp. -/
def getMessagesBySessionId (s : Storage) (sessionId : String) : List ChatMessage :=
  sortByTs (s.chatMessages.filter (fun m => m.sessionId == sessionId))

/-- `MemStorage.createChatMessage`; `t1` is the `new Date()` read taken for
the message timestamp, `t2` the later read inside the
`updateSessionActivity` call it performs. The session is never checked
for existence. -/
def createChatMessage (s : Storage) (t1 t2 : Nat) (ins : InsertChatMessage) :
    ChatMessage × Storage :=
  let id := uuid s.nextId
  let message : ChatMessage :=
    { id := id
      sessionId := ins.sessionId
      role := ins.role
      content := ins.content
      intent := ins.intent
      confidence := ins.confidence
      dataSources := ins.dataSources
      suggestedPrompts := ins.suggestedPrompts
      actions := ins.actions
      metadata := ins.metadata
      timestamp := t1 }
  let s1 : Storage :=
    { s with chatMessages := s.chatMessages ++ [message], nextId := s.nextId + 1 }
  (message, updateSessionActivity s1 t2 ins.sessionId)

/- ===== Auth service (server/services/authService.ts) ===== -/

/-- `DataScope` inside a JWT payload. -/
structure DataScope where
  entities : List String
  geographies : List String
deriving Repr, DecidableEq

/-- `JWTPayload`: the authenticated principal. -/
structure JWTPayload where
  sub : String
  org_id : String
  role : String
  permissions : List String
  data_scope : DataScope
  exp : Nat
  iat : Nat
deriving Repr, DecidableEq

/-- The `mockPayload` constant built by `verifyToken`; `now` is the
`Date.now()` read (in seconds) feeding `exp` and `iat`. -/
def mockPayload (now : Nat) : JWTPayload :=
  { sub := "user-123"
    org_id := "org-456"
    role := "ESG_ANALYST"
    permissions := ["read:esg_data", "read:reports", "read:audit_logs"]
    data_scope :=
      { entities := ["entity-dubai-hq", "entity-abu-dhabi-plant"]
        geographies := ["UAE", "KSA"] }
    exp := now + 3600
    iat := now }

/-- `verifyToken`: the mock JWT check. Accepts any string carrying the
bearer prefix and returns the fixed mock payload. The JS guard `!token`
only rejects the empty string, which the prefix test also rejects; both
conditions are kept literally. -/
def verifyToken (now : Nat) (token : String) : Option JWTPayload :=
  if token == "" || !(strStartsWith token "Bearer ") then
    none
  else
    some (mockPayload now)

/- ===== Mock MCP LLM service (server/services/mcpLlmService.ts) ===== -/

/-- One entry of the session history handed to the LLM capability. -/
structure HistoryEntry where
  role : String
  content : String
deriving Repr, DecidableEq

/-- `LLMResponse` shape returned by the generation capability. The JS
number `confidence` is abstracted to a `Nat` score; no claim inspects
its value. -/
structure LLMResponse where
  text : String
  confidence : Nat
  intent : String
  suggestedPrompts : List String
  dataSources : List String
deriving Repr, DecidableEq

/-- The opaque response-generation capability (`callMcpLlm` delegating to
`generateMockResponse`): query, enriched context and session history to
a response. It is a parameter of the pipeline, per its role as an
external collaborator. -/
def GenCap : Type :=
  String → SessionContext → List HistoryEntry → LLMResponse

/-- `enrichContext`: copies the client context and overwrites `userRole`
with the principal role. -/
def enrichContext (query : String) (context : SessionContext)
    (userRole : String) (organizationName : String) : SessionContext :=
  { context with userRole := some userRole }

/-- `detectIntent`: keyword routing over the lowercased query. -/
def detectIntent (query : String) : String :=
  let lowerQuery := lowerStr query
  if strIncludes lowerQuery "why" || strIncludes lowerQuery "explain" ||
      strIncludes lowerQuery "what is" then
    "explain"
  else if strIncludes lowerQuery "summarize" || strIncludes lowerQuery "summary" ||
      strIncludes lowerQuery "overview" then
    "summarize"
  else if strIncludes lowerQuery "how do i" || strIncludes lowerQuery "where" ||
      strIncludes lowerQuery "navigate" then
    "navigate"
  else if strIncludes lowerQuery "help" || strIncludes lowerQuery "guide" ||
      strIncludes lowerQuery "tutorial" then
    "guide"
  else if strIncludes lowerQuery "validate" || strIncludes lowerQuery "check" ||
      strIncludes lowerQuery "verify" then
    "validate"
  else
    "guide"

/-- `formatResponse`: passes the generated text through unchanged. -/
def formatResponse (llmResponse : LLMResponse) (intent : String) : String :=
  llmResponse.text

/-- `streamResponse`: the emitted token sequence, one token per
`split(' ')` word with the delimiter appended (the generator yields; the
per-token pacing delay is timing-only and not modelled). -/
def streamTokens (text : String) : List String :=
  (splitChar ' ' text.data).map (fun w => String.mk (w ++ [' ']))

/- ===== Request gateway (server/routes.ts) ===== -/

/-- Parsed body of `POST /api/v1/copilot/chat` (`ChatQueryRequest`). -/
structure ChatQueryRequest where
  sessionId : Option String := none
  query : String
  context : Option SessionContext := none
deriving Repr, DecidableEq

/-- `chatQueryRequestSchema` on a shape-correct body: `z.string().min(1)
.max(2000)` on the query is the only constraint that can fail. -/
def chatQuerySchemaOk (req : ChatQueryRequest) : Bool :=
  1 ≤ req.query.length && req.query.length ≤ 2000

/-- Outcome of the single-shot endpoint. -/
inductive RestOutcome where
  | unauthorized
  | invalidQuery
  | sessionNotFound
  | ok (sessionId : String) (messageId : String) (text : String)
      (intent : String) (suggestedPrompts : List String)
      (dataSources : List String) (timestamp : Nat)
deriving Repr, DecidableEq

/-- Wall-clock reads of one pipeline run, in call order: token check,
session creation, the two reads of each of the two message appends. -/
structure PipeTimes where
  tAuth : Nat := 0
  tCreate : Nat := 0
  tU1 : Nat := 0
  tU2 : Nat := 0
  tA1 : Nat := 0
  tA2 : Nat := 0
deriving Repr, DecidableEq

/-- Step 1 of the single-shot endpoint: get or create the chat session.
With a supplied id, the session must exist and be owned by the caller
(`session.userId !== user.sub` aborts); otherwise a new session is
created for the principal. -/
def resolveSession (s : Storage) (now : Nat) (user : JWTPayload)
    (req : ChatQueryRequest) : Option (ChatSession × Storage) :=
  match req.sessionId with
  | some sid =>
    match getChatSession s sid with
    | none => none
    | some session => if session.userId == user.sub then some (session, s) else none
  | none =>
    some (createChatSession s now
      { userId := user.sub, organizationId := user.org_id
        context := req.context.getD {} })

/-- The insert payload of the inbound user message. -/
def userInsert (sessionId query : String) : InsertChatMessage :=
  { sessionId := sessionId, role := "user", content := query }

/-- The insert payload of the outbound assistant message. -/
def assistantInsert (sessionId : String) (formattedText : String)
    (llm : LLMResponse) : InsertChatMessage :=
  { sessionId := sessionId
    role := "assistant"
    content := formattedText
    intent := some llm.intent
    confidence := some llm.confidence
    dataSources := some llm.dataSources
    suggestedPrompts := some llm.suggestedPrompts
    actions := some []
    metadata := some
      { tokensUsed := some (formattedText.length / 4)
        latencyMs := some 1250
        cached := some false } }

/-- `slice(-10)`: the most recent ten elements, order preserved. -/
def lastTen (l : List ChatMessage) : List ChatMessage :=
  l.drop (l.length - 10)

/-- The `POST /api/v1/copilot/chat` handler: authenticate, validate,
resolve or create the session, persist the user message, enrich,
classify, generate over the last ten messages of the session, persist
the assistant message, and answer. -/
def postChat (gen : GenCap) (s : Storage) (ts : PipeTimes)
    (authHeader : String) (req : ChatQueryRequest) : RestOutcome × Storage :=
  match verifyToken ts.tAuth authHeader with
  | none => (RestOutcome.unauthorized, s)
  | some user =>
    if !(chatQuerySchemaOk req) then
      (RestOutcome.invalidQuery, s)
    else
      match resolveSession s ts.tCreate user req with
      | none => (RestOutcome.sessionNotFound, s)
      | some (session, s1) =>
        let (userMessage, s2) := createChatMessage s1 ts.tU1 ts.tU2
          (userInsert session.id req.query)
        let enriched := enrichContext req.query (req.context.getD {})
          user.role "Acme Sustainability Corp"
        let intent := detectIntent req.query
        let history := (lastTen (getMessagesBySessionId s2 session.id)).map
          (fun m => HistoryEntry.mk m.role m.content)
        let llm := gen req.query enriched history
        let formattedText := formatResponse llm intent
        let (assistantMessage, s3) := createChatMessage s2 ts.tA1 ts.tA2
          (assistantInsert session.id formattedText llm)
        (RestOutcome.ok session.id assistantMessage.id formattedText
          llm.intent llm.suggestedPrompts llm.dataSources
          assistantMessage.timestamp, s3)

/-- Inbound `chat_query` envelope on the websocket. -/
structure WsChatQueryMsg where
  sessionId : Option String := none
  query : String
  context : Option SessionContext := none
  token : String
deriving Repr, DecidableEq

/-- Outbound websocket envelopes, in send order. -/
inductive WsEnvelope where
  | typing (sessionId : Option String)
  | token (sessionId : String) (text : String)
  | complete (sessionId : String) (messageId : String)
      (suggestedPrompts : List String) (metadata : Option MessageMetadata)
  | error (code : String) (message : String)
deriving Repr, DecidableEq

/-- The websocket session resolution block: load the supplied session id
or fall back to creating a fresh session for the principal; unlike the
single-shot path, a loaded session is used without comparing its owner
to the principal. -/
def wsResolveSession (s : Storage) (now : Nat) (user : JWTPayload)
    (msg : WsChatQueryMsg) : ChatSession × Storage :=
  let found := match msg.sessionId with
    | some sid => getChatSession s sid
    | none => none
  match found with
  | some session => (session, s)
  | none =>
    createChatSession s now
      { userId := user.sub, organizationId := user.org_id
        context := msg.context.getD {} }

/-- The websocket `chat_query` handler: verify the per-message token, send
`typing`, resolve the session (no ownership check and no query
validation appear in this path), persist the user message, generate
with an empty history, stream one `token` envelope per word, persist
the assistant message, send `complete`. Returns the sent envelopes in
order with the final storage. -/
def wsChatQuery (gen : GenCap) (s : Storage) (ts : PipeTimes)
    (msg : WsChatQueryMsg) : List WsEnvelope × Storage :=
  match verifyToken ts.tAuth msg.token with
  | none => ([WsEnvelope.error "UNAUTHORIZED" "Invalid token"], s)
  | some user =>
    let (session, s1) := wsResolveSession s ts.tCreate user msg
    let (userMessage, s2) := createChatMessage s1 ts.tU1 ts.tU2
      (userInsert session.id msg.query)
    let enriched := enrichContext msg.query (msg.context.getD {})
      user.role "Acme Sustainability Corp"
    let intent := detectIntent msg.query
    let llm := gen msg.query enriched []
    let formattedText := formatResponse llm intent
    let (assistantMessage, s3) := createChatMessage s2 ts.tA1 ts.tA2
      (assistantInsert session.id formattedText llm)
    (WsEnvelope.typing msg.sessionId ::
      (streamTokens formattedText).map (fun t => WsEnvelope.token session.id t) ++
      [WsEnvelope.complete session.id assistantMessage.id
        llm.suggestedPrompts assistantMessage.metadata],
     s3)

/- ===== Further definitions used by the verification ===== -/

/-- The ordered intent rule list from the spec, keywords then label. -/
def intentRules : List (List String × String) :=
  [ (["why", "explain", "what is"], "explain"),
    (["summarize", "summary", "overview"], "summarize"),
    (["how do i", "where", "navigate"], "navigate"),
    (["help", "guide", "tutorial"], "guide"),
    (["validate", "check", "verify"], "validate") ]

/-- Modelled from the spec words for comparison with `detectIntent`:
first-match-wins over the fixed ordered rule list, case-insensitive
substring matching, default `guide`. -/
def classifySpec (query : String) : String :=
  match intentRules.find? (fun r => r.1.any (fun kw => strIncludes (lowerStr query) kw)) with
  | some r => r.2
  | none => "guide"

/-- A constant response-generation capability for concrete runs. -/
def demoGen : GenCap := fun _ _ _ =>
  { text := "Here is guidance.", confidence := 87, intent := "guide",
    suggestedPrompts := ["Show metrics"], dataSources := ["esg_metrics"] }

/-- A session owned by a principal other than the mock-authenticated one. -/
def foreignSession : ChatSession :=
  { id := "sess-A", userId := "user-999", organizationId := "org-456",
    createdAt := 0, lastActivity := 0, messageCount := 0, context := {} }

/-- A store holding only the foreign-owned session. -/
def foreignStore : Storage :=
  { chatSessions := [("sess-A", foreignSession)], chatMessages := [], nextId := 0 }

/-- Recognizer for `error` envelopes. -/
def isErrorEnv : WsEnvelope → Bool
  | WsEnvelope.error _ _ => true
  | _ => false

/-- Number of persisted messages carrying a given session id. -/
def msgsFor (s : Storage) (sid : String) : Nat :=
  (s.chatMessages.filter (fun m => m.sessionId == sid)).length

/-- A sequence of `createChatMessage` calls, each with its two clock reads. -/
def appendRun (s : Storage) : List (Nat × Nat × InsertChatMessage) → Storage
  | [] => s
  | (t1, t2, ins) :: rest => appendRun (createChatMessage s t1 t2 ins).2 rest

/-- The store obtained by creating one fresh session at time `0`. -/
def oneSessionStore : Storage :=
  (createChatSession emptyStorage 0
    { userId := "u", organizationId := "o", context := {} }).2

/-- The response text of a successful single-shot outcome. -/
def restText : RestOutcome → Option String
  | RestOutcome.ok _ _ text _ _ _ _ => some text
  | _ => none

/-- A capability revealing the length of the history it receives. -/
def histGen : GenCap := fun _ _ h =>
  { text := toString h.length, confidence := 80, intent := "guide",
    suggestedPrompts := [], dataSources := [] }

/-- An existing session owned by the mock principal. -/
def sessB : ChatSession :=
  { id := "sess-B", userId := "user-123", organizationId := "org-456",
    createdAt := 0, lastActivity := 1, messageCount := 1, context := {} }

/-- One message already stored under that session. -/
def msgB0 : ChatMessage :=
  { id := "m0", sessionId := "sess-B", role := "user", content := "earlier",
    intent := none, confidence := none, dataSources := none,
    suggestedPrompts := none, actions := none, metadata := none, timestamp := 1 }

/-- The store for the history runs. -/
def storeB : Storage :=
  { chatSessions := [("sess-B", sessB)], chatMessages := [msgB0], nextId := 0 }

/-- Monotone clock reads for the history runs. -/
def timesB : PipeTimes :=
  { tAuth := 2, tCreate := 2, tU1 := 2, tU2 := 3, tA1 := 4, tA2 := 5 }

/- ===== Lemmas and claim theorems ===== -/

lemma detect_eq_spec (q : String) : detectIntent q = classifySpec q := by
  simp only [detectIntent, classifySpec, intentRules, List.find?, List.any, Bool.or_false]
  cases h0 : strIncludes (lowerStr q) "why" <;> simp [h0]
  cases h1 : strIncludes (lowerStr q) "explain" <;> simp [h1]
  cases h2 : strIncludes (lowerStr q) "what is" <;> simp [h2]
  cases h3 : strIncludes (lowerStr q) "summarize" <;> simp [h3]
  cases h4 : strIncludes (lowerStr q) "summary" <;> simp [h4]
  cases h5 : strIncludes (lowerStr q) "overview" <;> simp [h5]
  cases h6 : strIncludes (lowerStr q) "how do i" <;> simp [h6]
  cases h7 : strIncludes (lowerStr q) "where" <;> simp [h7]
  cases h8 : strIncludes (lowerStr q) "navigate" <;> simp [h8]
  cases h9 : strIncludes (lowerStr q) "help" <;> simp [h9]
  cases h10 : strIncludes (lowerStr q) "guide" <;> simp [h10]
  cases h11 : strIncludes (lowerStr q) "tutorial" <;> simp [h11]
  cases h12 : strIncludes (lowerStr q) "validate" <;> simp [h12]
  cases h13 : strIncludes (lowerStr q) "check" <;> simp [h13]
  cases h14 : strIncludes (lowerStr q) "verify" <;> simp [h14]

lemma splitChar_ne_nil (c : Char) (l : List Char) : splitChar c l ≠ [] := by
  induction l with
  | nil => simp [splitChar]
  | cons a rest ih =>
    simp only [splitChar]
    split
    · simp
    · cases h : splitChar c rest with
      | nil => simp
      | cons w ws => simp [h]

lemma join_map_splitChar (c : Char) (l : List Char) :
    ((splitChar c l).map (fun w => w ++ [c])).flatten = l ++ [c] := by
  induction l with
  | nil => simp [splitChar]
  | cons a rest ih =>
    simp only [splitChar]
    by_cases hac : a = c
    · simp only [if_pos hac, List.map_cons, List.flatten_cons, hac]
      simp [ih]
    · simp only [if_neg hac]
      cases h : splitChar c rest with
      | nil => exact absurd h (splitChar_ne_nil c rest)
      | cons w ws =>
        rw [h] at ih
        simp only [List.map_cons, List.flatten_cons] at ih ⊢
        simp [← ih]

lemma stream_join (text : String) : String.join (streamTokens text) = text ++ " " := by
  apply String.ext
  have hjoin : ∀ (l : List String) (acc : String),
      (l.foldl (fun a b => a ++ b) acc).data = acc.data ++ (l.map String.data).flatten := by
    intro l
    induction l with
    | nil => intro acc; simp
    | cons h t ih =>
      intro acc
      simp [List.foldl_cons, ih, String.data_append]
  show (String.join (streamTokens text)).data = (text ++ " ").data
  rw [String.data_append]
  unfold String.join
  rw [hjoin]
  simp only [streamTokens, List.map_map]
  have hcomp : (List.map (String.data ∘ fun w => String.mk (w ++ [' '])) (splitChar ' ' text.data)) =
      (splitChar ' ' text.data).map (fun w => w ++ [' ']) := by
    simp [Function.comp]
  rw [hcomp, join_map_splitChar]
  rfl

lemma lookupS_setSession_self (l : List (String × ChatSession)) (k : String) (v : ChatSession) :
    lookupS (setSession l k v) k = some v := by
  induction l with
  | nil => simp [setSession, lookupS]
  | cons p rest ih =>
    obtain ⟨k2, v2⟩ := p
    cases h : (k2 == k) <;> simp [setSession, lookupS, h, ih]

lemma lookupS_none_of_absent (l : List (String × ChatSession)) (k : String)
    (h : ∀ p ∈ l, p.1 ≠ k) : lookupS l k = none := by
  induction l with
  | nil => rfl
  | cons p rest ih =>
    obtain ⟨k2, v2⟩ := p
    have hne : k2 ≠ k := h (k2, v2) (List.mem_cons_self _ _)
    simp only [lookupS]
    rw [if_neg (by simpa using hne)]
    exact ih (fun q hq => h q (List.mem_cons_of_mem _ hq))

lemma updateSessionActivity_chatMessages (s : Storage) (now : Nat) (id : String) :
    (updateSessionActivity s now id).chatMessages = s.chatMessages := by
  unfold updateSessionActivity
  cases lookupS s.chatSessions id <;> rfl

lemma updateSessionActivity_absent (s : Storage) (now : Nat) (id : String)
    (h : lookupS s.chatSessions id = none) : updateSessionActivity s now id = s := by
  unfold updateSessionActivity
  rw [h]

lemma createChatMessage_chatMessages (s : Storage) (t1 t2 : Nat) (ins : InsertChatMessage) :
    (createChatMessage s t1 t2 ins).2.chatMessages =
      s.chatMessages ++ [(createChatMessage s t1 t2 ins).1] := by
  unfold createChatMessage
  rw [updateSessionActivity_chatMessages]

lemma createChatMessage_session_found (s : Storage) (t1 t2 : Nat) (ins : InsertChatMessage)
    (sess : ChatSession) (h : lookupS s.chatSessions ins.sessionId = some sess) :
    (createChatMessage s t1 t2 ins).2.chatSessions =
      setSession s.chatSessions ins.sessionId
        { sess with lastActivity := t2, messageCount := sess.messageCount + 1 } := by
  unfold createChatMessage updateSessionActivity
  simp only [h]

lemma getChatSession_after_append (s : Storage) (t1 t2 : Nat) (ins : InsertChatMessage)
    (sess : ChatSession) (h : getChatSession s ins.sessionId = some sess) :
    getChatSession (createChatMessage s t1 t2 ins).2 ins.sessionId =
      some { sess with lastActivity := t2, messageCount := sess.messageCount + 1 } := by
  unfold getChatSession at h ⊢
  rw [createChatMessage_session_found s t1 t2 ins sess h, lookupS_setSession_self]

lemma chain_insertByTs (m : ChatMessage) (l : List ChatMessage)
    (h : List.Chain' (fun a b => a.timestamp ≤ b.timestamp) l) :
    List.Chain' (fun a b => a.timestamp ≤ b.timestamp) (insertByTs m l) := by
  induction l with
  | nil => simp [insertByTs]
  | cons a t ih =>
    rw [List.chain'_cons'] at h
    obtain ⟨h1, h2⟩ := h
    simp only [insertByTs]
    split
    · rename_i hle
      exact List.Chain'.cons hle (List.chain'_cons'.mpr ⟨h1, h2⟩)
    · rename_i hgt
      have ham : a.timestamp ≤ m.timestamp := Nat.le_of_not_le hgt
      rw [List.chain'_cons']
      refine ⟨?_, ih h2⟩
      intro y hy
      cases t with
      | nil =>
        simp [insertByTs] at hy
        subst hy
        exact ham
      | cons b t2 =>
        simp only [insertByTs] at hy
        by_cases hmb : m.timestamp ≤ b.timestamp
        · rw [if_pos hmb] at hy
          simp at hy
          subst hy
          exact ham
        · rw [if_neg hmb] at hy
          simp at hy
          subst hy
          exact h1 b rfl

lemma chain_sortByTs (l : List ChatMessage) :
    List.Chain' (fun a b => a.timestamp ≤ b.timestamp) (sortByTs l) := by
  induction l with
  | nil => simp [sortByTs]
  | cons a t ih => exact chain_insertByTs a (sortByTs t) ih

lemma insertByTs_append_last (a m : ChatMessage) (xs : List ChatMessage)
    (h : a.timestamp ≤ m.timestamp) :
    insertByTs a (xs ++ [m]) = insertByTs a xs ++ [m] := by
  induction xs with
  | nil => simp [insertByTs, h]
  | cons y ys ih =>
    simp only [List.cons_append, insertByTs, List.append_eq]
    split
    · rfl
    · rw [ih]
      rfl

lemma sortByTs_append_last (l : List ChatMessage) (m : ChatMessage)
    (h : ∀ a ∈ l, a.timestamp ≤ m.timestamp) :
    sortByTs (l ++ [m]) = sortByTs l ++ [m] := by
  induction l with
  | nil => simp [sortByTs, insertByTs]
  | cons a t ih =>
    simp only [List.cons_append, sortByTs, List.append_eq]
    rw [ih (fun x hx => h x (List.mem_cons_of_mem _ hx))]
    exact insertByTs_append_last a m (sortByTs t) (h a (List.mem_cons_self _ _))

/-- Claim C7: `enrichContext` returns a copy of the client context whose
`userRole` equals the principal role (overwriting any client value) and
leaves every other field (page, pageType, entityIds, metricIds,
reportId, userAction) unchanged. -/
theorem c7_enrich_overwrites_role_only :
    ∀ (query : String) (c : SessionContext) (role org : String),
      (enrichContext query c role org).userRole = some role ∧
      (enrichContext query c role org).page = c.page ∧
      (enrichContext query c role org).pageType = c.pageType ∧
      (enrichContext query c role org).entityIds = c.entityIds ∧
      (enrichContext query c role org).metricIds = c.metricIds ∧
      (enrichContext query c role org).reportId = c.reportId ∧
      (enrichContext query c role org).userAction = c.userAction := by
  intro query c role org
  exact ⟨rfl, rfl, rfl, rfl, rfl, rfl, rfl⟩

/-- Claim C10: `verifyToken` yields a principal exactly when the input
starts with the bearer prefix, every well-formed token yields the same
fixed mock payload (so the result is independent of the token contents
beyond the prefix), and that payload names subject `user-123`,
organization `org-456` and role `ESG_ANALYST`. -/
theorem c10_verifyToken_constant_principal :
    (∀ (now : Nat) (tok : String),
      (verifyToken now tok).isSome = strStartsWith tok "Bearer ") ∧
    (∀ (now : Nat) (tok : String), strStartsWith tok "Bearer " = true →
      verifyToken now tok = some (mockPayload now)) ∧
    (∀ (now : Nat) (t1 t2 : String), strStartsWith t1 "Bearer " = true →
      strStartsWith t2 "Bearer " = true → verifyToken now t1 = verifyToken now t2) ∧
    (∀ now : Nat, (mockPayload now).sub = "user-123" ∧
      (mockPayload now).org_id = "org-456" ∧ (mockPayload now).role = "ESG_ANALYST") := by
  have key : ∀ (now : Nat) (tok : String), strStartsWith tok "Bearer " = true →
      verifyToken now tok = some (mockPayload now) := by
    intro now tok h
    by_cases hb : tok = ""
    · subst hb
      exact absurd h (by decide)
    · have hbe : (tok == "") = false := beq_eq_false_iff_ne.mpr hb
      simp [verifyToken, hbe, h]
  refine ⟨?_, key, ?_, ?_⟩
  · intro now tok
    by_cases hb : tok = ""
    · subst hb
      rfl
    · have hbe : (tok == "") = false := beq_eq_false_iff_ne.mpr hb
      unfold verifyToken
      rw [hbe]
      cases hS : strStartsWith tok "Bearer " <;> simp [hS]
  · intro now t1 t2 h1 h2
    rw [key now t1 h1, key now t2 h2]
  · intro now
    exact ⟨rfl, rfl, rfl⟩

/-- Witness for C10 at concrete tokens. -/
theorem c10_witness :
    verifyToken 7 "Bearer abc" = some (mockPayload 7) ∧
    verifyToken 7 "Bearer xyz" = verifyToken 7 "Bearer abc" :=
  ⟨c10_verifyToken_constant_principal.2.1 7 "Bearer abc" (by decide),
   c10_verifyToken_constant_principal.2.2.1 7 "Bearer xyz" "Bearer abc"
     (by decide) (by decide)⟩

/-- Claim C6: `detectIntent` is a pure function agreeing everywhere with
first-match-wins evaluation of the fixed ordered rule list (so rule
order is respected); a query containing both `help` and `why` yields
`explain`, and a query matching no rule yields the default `guide`. -/
theorem c6_intent_first_match_wins :
    (∀ q : String, detectIntent q = classifySpec q) ∧
    (∀ q : String, strIncludes (lowerStr q) "help" = true →
      strIncludes (lowerStr q) "why" = true → detectIntent q = "explain") ∧
    (∀ q : String,
      intentRules.find? (fun r => r.1.any (fun kw => strIncludes (lowerStr q) kw)) = none →
      detectIntent q = "guide") := by
  refine ⟨detect_eq_spec, ?_, ?_⟩
  · intro q hh hw
    simp [detectIntent, hw]
  · intro q h
    rw [detect_eq_spec]
    simp [classifySpec, h]

/-- Witness for C6 at concrete queries. -/
theorem c6_witness :
    detectIntent "please help me see why" = "explain" ∧ detectIntent "xyzzy" = "guide" :=
  ⟨c6_intent_first_match_wins.2.1 "please help me see why" (by decide) (by decide),
   c6_intent_first_match_wins.2.2 "xyzzy" (by decide)⟩

/-- Counterexample for C5: concatenating the streamed tokens of
`hello world` yields `hello world ` with a trailing delimiter, which is
not equal to the source text, refuting concatenation equivalence. -/
theorem c5_counterexample_concat :
    String.join (streamTokens "hello world") = "hello world " ∧
    ¬ String.join (streamTokens "hello world") = "hello world" := by
  constructor
  · decide
  · decide

/-- Claim C5 (amended): the streamed token sequence is the space-delimited
words each with the delimiter appended; concatenating the tokens yields
the source text plus one trailing delimiter; `hello world` yields
exactly `hello ` then `world `; and on the streaming path the single
`complete` envelope comes after all `token` envelopes. -/
theorem c5_amended_stream_tokens :
    (∀ text : String, String.join (streamTokens text) = text ++ " ") ∧
    (streamTokens "hello world" = ["hello ", "world "]) ∧
    (∀ (gen : GenCap) (s : Storage) (ts : PipeTimes) (msg : WsChatQueryMsg)
        (user : JWTPayload), verifyToken ts.tAuth msg.token = some user →
      ∃ (text sid mid : String) (prompts : List String) (md : Option MessageMetadata),
        (wsChatQuery gen s ts msg).1 =
          WsEnvelope.typing msg.sessionId ::
            ((streamTokens text).map (fun t => WsEnvelope.token sid t) ++
              [WsEnvelope.complete sid mid prompts md])) := by
  refine ⟨stream_join, by decide, ?_⟩
  intro gen s ts msg user h
  rcases hr : wsResolveSession s ts.tCreate user msg with ⟨sess, s1⟩
  simp only [wsChatQuery, h, hr, formatResponse, createChatMessage]
  exact ⟨_, _, _, _, _, rfl⟩

/-- Witness for C5 at a concrete streaming run. -/
theorem c5_amended_witness :
    ∃ (text sid mid : String) (prompts : List String) (md : Option MessageMetadata),
      (wsChatQuery demoGen emptyStorage {}
        { query := "hello world", token := "Bearer tok" }).1 =
        WsEnvelope.typing none ::
          ((streamTokens text).map (fun t => WsEnvelope.token sid t) ++
            [WsEnvelope.complete sid mid prompts md]) :=
  c5_amended_stream_tokens.2.2 demoGen emptyStorage {}
    { query := "hello world", token := "Bearer tok" } (mockPayload 0) rfl

/-- Claim C1 (code bug): evaluated at a `chat_query` carrying a session id
owned by `user-999` while the token authenticates as `user-123`, the
streaming path performs no ownership check: it persists two messages
into the foreign session, bumps its `messageCount` to `2`, and emits no
`error` envelope, while the single-shot path on the same input aborts
with `SESSION_NOT_FOUND` and leaves the store unchanged. -/
theorem c1_ws_path_persists_for_foreign_session :
    ((verifyToken 0 "Bearer tok").map (fun u => u.sub) = some "user-123") ∧
    foreignSession.userId = "user-999" ∧
    (((wsChatQuery demoGen foreignStore {}
        { sessionId := some "sess-A", query := "hi", token := "Bearer tok" }).2.chatMessages.filter
        (fun m => m.sessionId == "sess-A")).length = 2) ∧
    ((getChatSession (wsChatQuery demoGen foreignStore {}
        { sessionId := some "sess-A", query := "hi", token := "Bearer tok" }).2 "sess-A").map
        (fun x => x.messageCount) = some 2) ∧
    (((wsChatQuery demoGen foreignStore {}
        { sessionId := some "sess-A", query := "hi", token := "Bearer tok" }).1.filter
        isErrorEnv) = []) ∧
    (postChat demoGen foreignStore {} "Bearer tok"
        { sessionId := some "sess-A", query := "hi" } =
      (RestOutcome.sessionNotFound, foreignStore)) := by
  refine ⟨by decide, rfl, by decide, by decide, by decide, by decide⟩

/-- Claim C8 (code bug): the single-shot path accepts a query exactly when
its length is between 1 and 2000 (the empty and the 2001-character
queries are rejected before any persistence, the store unchanged), but
the streaming path performs no validation at all: an empty-string query
is processed, a session is created and an empty user message persisted
with no `error` envelope. -/
theorem c8_ws_path_skips_validation :
    (chatQuerySchemaOk { query := "" } = false) ∧
    (postChat demoGen emptyStorage {} "Bearer tok" { query := "" } =
      (RestOutcome.invalidQuery, emptyStorage)) ∧
    (chatQuerySchemaOk { query := String.mk (List.replicate 2001 'a') } = false) ∧
    (postChat demoGen emptyStorage {} "Bearer tok"
        { query := String.mk (List.replicate 2001 'a') } =
      (RestOutcome.invalidQuery, emptyStorage)) ∧
    (chatQuerySchemaOk { query := "a" } = true) ∧
    (chatQuerySchemaOk { query := String.mk (List.replicate 2000 'a') } = true) ∧
    ((wsChatQuery demoGen emptyStorage {}
        { query := "", token := "Bearer tok" }).2.chatSessions.length = 1) ∧
    ((wsChatQuery demoGen emptyStorage {}
        { query := "", token := "Bearer tok" }).2.chatMessages.map
        (fun m => (m.role, m.content)) = [("user", ""), ("assistant", "Here is guidance.")]) ∧
    ((wsChatQuery demoGen emptyStorage {}
        { query := "", token := "Bearer tok" }).1.filter isErrorEnv = []) := by
  have hlen1 : (String.mk (List.replicate 2001 'a')).length = 2001 := by
    rw [String.length_mk, List.length_replicate]
  have hlen2 : (String.mk (List.replicate 2000 'a')).length = 2000 := by
    rw [String.length_mk, List.length_replicate]
  have hiff : ∀ q : String,
      chatQuerySchemaOk { query := q } = (1 ≤ q.length && q.length ≤ 2000) :=
    fun q => rfl
  have hs1 : chatQuerySchemaOk { query := String.mk (List.replicate 2001 'a') } = false := by
    rw [hiff, hlen1]
    decide
  have hs2 : chatQuerySchemaOk { query := String.mk (List.replicate 2000 'a') } = true := by
    rw [hiff, hlen2]
    decide
  have hv : verifyToken ({} : PipeTimes).tAuth "Bearer tok" = some (mockPayload 0) := by decide
  refine ⟨by decide, by decide, hs1, ?_, by decide, hs2, by decide, by decide, by decide⟩
  simp only [postChat, hv, hs1]
  rfl

lemma createChatMessage_unfold_update (s : Storage) (t1 t2 : Nat) (ins : InsertChatMessage) :
    (createChatMessage s t1 t2 ins).2 =
      updateSessionActivity
        { s with
            chatMessages := s.chatMessages ++ [(createChatMessage s t1 t2 ins).1]
            nextId := s.nextId + 1 } t2 ins.sessionId := rfl

/-- Counterexample for C2: `createChatMessage` aimed at the session id
`missing`, for which no session exists, persists the message anyway
(the message map grows to one entry) instead of signalling NotFound and
persisting nothing. -/
theorem c2_counterexample_append_persists :
    ((createChatMessage emptyStorage 0 0 (userInsert "missing" "hi")).2.chatMessages.length = 1) ∧
    ((createChatMessage emptyStorage 0 0 (userInsert "missing" "hi")).2.chatSessions = []) :=
  ⟨rfl, rfl⟩

/-- Claim C2 (amended): `createChatMessage` on a nonexistent session id
signals nothing and persists the message anyway, leaving the session
map untouched (the embedded `updateSessionActivity` is a silent no-op);
`getChatSession` on an absent id returns an explicit absent result and
`getMessagesBySessionId` on an id with no messages returns the empty
list, neither being an error. -/
theorem c2_amended_missing_session :
    ∀ (s : Storage) (t1 t2 : Nat) (ins : InsertChatMessage),
      (∀ p ∈ s.chatSessions, p.1 ≠ ins.sessionId) →
      ((createChatMessage s t1 t2 ins).2.chatSessions = s.chatSessions ∧
       (createChatMessage s t1 t2 ins).2.chatMessages =
         s.chatMessages ++ [(createChatMessage s t1 t2 ins).1] ∧
       getChatSession s ins.sessionId = none ∧
       ((∀ m ∈ s.chatMessages, m.sessionId ≠ ins.sessionId) →
         getMessagesBySessionId s ins.sessionId = [])) := by
  intro s t1 t2 ins h
  have hn : lookupS s.chatSessions ins.sessionId = none := lookupS_none_of_absent _ _ h
  refine ⟨?_, createChatMessage_chatMessages s t1 t2 ins, hn, ?_⟩
  · rw [createChatMessage_unfold_update, updateSessionActivity_absent]
    exact hn
  · intro hm
    unfold getMessagesBySessionId
    have hfil : s.chatMessages.filter (fun m => m.sessionId == ins.sessionId) = [] := by
      rw [List.filter_eq_nil_iff]
      intro a ha
      simpa using hm a ha
    rw [hfil]
    rfl

/-- Witness for C2 at a concrete store holding an unrelated session. -/
theorem c2_amended_witness :
    (createChatMessage foreignStore 0 0 (userInsert "missing" "hi")).2.chatSessions =
        foreignStore.chatSessions ∧
      (createChatMessage foreignStore 0 0 (userInsert "missing" "hi")).2.chatMessages =
        foreignStore.chatMessages ++
          [(createChatMessage foreignStore 0 0 (userInsert "missing" "hi")).1] ∧
      getChatSession foreignStore "missing" = none ∧
      ((∀ m ∈ foreignStore.chatMessages, m.sessionId ≠ "missing") →
        getMessagesBySessionId foreignStore "missing" = []) :=
  c2_amended_missing_session foreignStore 0 0 (userInsert "missing" "hi") (by decide)

/-- Counterexample for C3: `updateSessionActivity` is itself a store
operation and increments `messageCount` without persisting any message,
so after creating a session and touching its activity once the count is
`1` while zero messages are stored under the session id. -/
theorem c3_counterexample_activity_without_message :
    ((getChatSession (updateSessionActivity oneSessionStore 1 (uuid 0)) (uuid 0)).map
        (fun x => x.messageCount) = some 1) ∧
    msgsFor (updateSessionActivity oneSessionStore 1 (uuid 0)) (uuid 0) = 0 := by
  refine ⟨by decide, by decide⟩

lemma msgsFor_append_self (s : Storage) (t1 t2 : Nat) (ins : InsertChatMessage) :
    msgsFor (createChatMessage s t1 t2 ins).2 ins.sessionId =
      msgsFor s ins.sessionId + 1 := by
  unfold msgsFor
  rw [createChatMessage_chatMessages, List.filter_append]
  have hmsg : ((createChatMessage s t1 t2 ins).1.sessionId == ins.sessionId) = true := by
    simp [createChatMessage]
  simp [List.filter, hmsg]

/-- Claim C3 (amended): a run of N `createChatMessage` calls targeting an
existing session advances both its `messageCount` and the number of
messages stored under its id by exactly N (hence they are N from a
fresh session); the unrestricted invariant fails because the store
operation `updateSessionActivity` bumps the count without a message. -/
theorem c3_amended_count_tracks_appends :
    ∀ (ops : List (Nat × Nat × InsertChatMessage)) (s : Storage) (sid : String)
      (sess : ChatSession),
      getChatSession s sid = some sess →
      (∀ x ∈ ops, x.2.2.sessionId = sid) →
      ((getChatSession (appendRun s ops) sid).map (fun x => x.messageCount) =
        some (sess.messageCount + ops.length) ∧
       msgsFor (appendRun s ops) sid = msgsFor s sid + ops.length) := by
  intro ops
  induction ops with
  | nil =>
    intro s sid sess hget hops
    simp [appendRun, hget]
  | cons op rest ih =>
    intro s sid sess hget hops
    obtain ⟨t1, t2, ins⟩ := op
    have hsid : ins.sessionId = sid := hops (t1, t2, ins) (List.mem_cons_self _ _)
    subst hsid
    have hstep := getChatSession_after_append s t1 t2 ins sess hget
    have hrest : ∀ x ∈ rest, x.2.2.sessionId = ins.sessionId :=
      fun x hx => hops x (List.mem_cons_of_mem _ hx)
    have := ih (createChatMessage s t1 t2 ins).2 ins.sessionId _ hstep hrest
    obtain ⟨hc, hm⟩ := this
    constructor
    · rw [show appendRun s ((t1, t2, ins) :: rest) =
          appendRun (createChatMessage s t1 t2 ins).2 rest from rfl]
      rw [hc]
      simp
      omega
    · rw [show appendRun s ((t1, t2, ins) :: rest) =
          appendRun (createChatMessage s t1 t2 ins).2 rest from rfl]
      rw [hm, msgsFor_append_self]
      simp
      omega

/-- Witness for C3: two appends on a fresh session take both the count and
the stored-message tally from zero to two. -/
theorem c3_amended_witness :
    (getChatSession (appendRun oneSessionStore
        [(1, 2, userInsert (uuid 0) "a"), (3, 4, userInsert (uuid 0) "b")]) (uuid 0)).map
        (fun x => x.messageCount) = some (0 + 2) ∧
      msgsFor (appendRun oneSessionStore
        [(1, 2, userInsert (uuid 0) "a"), (3, 4, userInsert (uuid 0) "b")]) (uuid 0) =
        msgsFor oneSessionStore (uuid 0) + 2 :=
  c3_amended_count_tracks_appends
    [(1, 2, userInsert (uuid 0) "a"), (3, 4, userInsert (uuid 0) "b")]
    oneSessionStore (uuid 0)
    { id := uuid 0, userId := "u", organizationId := "o", createdAt := 0,
      lastActivity := 0, messageCount := 0, context := {} }
    (by decide) (by decide)

/-- Counterexample for C4: with the session created at clock `5`, a
message appended with clock reads `5` then `6` (a non-decreasing wall
clock) gets timestamp `5`, which is not strictly greater than the
session `lastActivity` of `5`, and the resulting `lastActivity` is `6`,
not the message timestamp. -/
theorem c4_counterexample_timestamps :
    ((getChatSession oneSessionStore (uuid 0)).map (fun x => x.lastActivity) = some 0) ∧
    ¬ (0 < (createChatMessage oneSessionStore 0 1 (userInsert (uuid 0) "q")).1.timestamp ∧
       (getChatSession (createChatMessage oneSessionStore 0 1
          (userInsert (uuid 0) "q")).2 (uuid 0)).map (fun x => x.lastActivity) =
         some (createChatMessage oneSessionStore 0 1 (userInsert (uuid 0) "q")).1.timestamp) := by
  refine ⟨by decide, by decide⟩

/-- Claim C4 (amended): retrieval order is always non-decreasing in
timestamps; and an append on an existing session under a monotone clock
stamps the message with the first clock read (hence at or after the
prior `lastActivity`, not strictly after), increments `messageCount` by
exactly one, advances `lastActivity` to the second clock read (at or
after the message timestamp, not exactly it), and extends the retrieval
order by the new message at the end, matching append order. -/
theorem c4_amended_append_updates :
    (∀ (s : Storage) (sid : String),
      List.Chain' (fun a b => a.timestamp ≤ b.timestamp) (getMessagesBySessionId s sid)) ∧
    (∀ (s : Storage) (sid : String) (sess : ChatSession) (t1 t2 : Nat)
        (ins : InsertChatMessage),
      ins.sessionId = sid →
      getChatSession s sid = some sess →
      sess.lastActivity ≤ t1 →
      t1 ≤ t2 →
      (∀ m ∈ s.chatMessages, m.sessionId = sid → m.timestamp ≤ t1) →
      ((createChatMessage s t1 t2 ins).1.timestamp = t1 ∧
       sess.lastActivity ≤ (createChatMessage s t1 t2 ins).1.timestamp ∧
       (getChatSession (createChatMessage s t1 t2 ins).2 sid).map (fun x => x.messageCount) =
         some (sess.messageCount + 1) ∧
       (getChatSession (createChatMessage s t1 t2 ins).2 sid).map (fun x => x.lastActivity) =
         some t2 ∧
       (createChatMessage s t1 t2 ins).1.timestamp ≤ t2 ∧
       getMessagesBySessionId (createChatMessage s t1 t2 ins).2 sid =
         getMessagesBySessionId s sid ++ [(createChatMessage s t1 t2 ins).1])) := by
  constructor
  · intro s sid
    exact chain_sortByTs _
  · intro s sid sess t1 t2 ins hsid hget hla ht hbound
    subst hsid
    have hstep := getChatSession_after_append s t1 t2 ins sess hget
    refine ⟨rfl, hla, ?_, ?_, ht, ?_⟩
    · rw [hstep]
      rfl
    · rw [hstep]
      rfl
    · unfold getMessagesBySessionId
      rw [createChatMessage_chatMessages, List.filter_append]
      have hmsg : ((createChatMessage s t1 t2 ins).1.sessionId == ins.sessionId) = true := by
        simp [createChatMessage]
      rw [show ([(createChatMessage s t1 t2 ins).1].filter
          (fun m => m.sessionId == ins.sessionId)) =
          [(createChatMessage s t1 t2 ins).1] from by simp [List.filter, hmsg]]
      apply sortByTs_append_last
      intro a ha
      have hmem := List.mem_filter.mp ha
      exact hbound a hmem.1 (by simpa using hmem.2)

/-- Witness for C4 at a concrete monotone-clock append. -/
theorem c4_amended_witness :
    (createChatMessage oneSessionStore 1 2 (userInsert (uuid 0) "q")).1.timestamp = 1 ∧
      (0 : Nat) ≤ (createChatMessage oneSessionStore 1 2 (userInsert (uuid 0) "q")).1.timestamp ∧
      (getChatSession (createChatMessage oneSessionStore 1 2
          (userInsert (uuid 0) "q")).2 (uuid 0)).map (fun x => x.messageCount) =
        some (0 + 1) ∧
      (getChatSession (createChatMessage oneSessionStore 1 2
          (userInsert (uuid 0) "q")).2 (uuid 0)).map (fun x => x.lastActivity) = some 2 ∧
      (createChatMessage oneSessionStore 1 2 (userInsert (uuid 0) "q")).1.timestamp ≤ 2 ∧
      getMessagesBySessionId (createChatMessage oneSessionStore 1 2
          (userInsert (uuid 0) "q")).2 (uuid 0) =
        getMessagesBySessionId oneSessionStore (uuid 0) ++
          [(createChatMessage oneSessionStore 1 2 (userInsert (uuid 0) "q")).1] :=
  c4_amended_append_updates.2 oneSessionStore (uuid 0)
    { id := uuid 0, userId := "u", organizationId := "o", createdAt := 0,
      lastActivity := 0, messageCount := 0, context := {} }
    1 2 (userInsert (uuid 0) "q") rfl (by decide) (by decide) (by decide)
    (by intro m hm; simp [oneSessionStore, createChatSession, emptyStorage] at hm)

/-- Counterexample for C9: on the streaming path the capability receives an
empty history. With a history-length-revealing capability and a session
already holding one message, the streamed assistant response is `0`
even though the session holds two messages at generation time, while
the single-shot path on the same store answers `2`. -/
theorem c9_counterexample_ws_empty_history :
    (((wsChatQuery histGen storeB timesB
        { sessionId := some "sess-B", query := "next", token := "Bearer tok" }).2.chatMessages.filter
        (fun m => m.role == "assistant")).map (fun m => m.content) = ["0"]) ∧
    ((lastTen (getMessagesBySessionId
        (createChatMessage storeB 2 3 (userInsert "sess-B" "next")).2 "sess-B")).length = 2) ∧
    (restText (postChat histGen storeB timesB "Bearer tok"
        { sessionId := some "sess-B", query := "next" }).1 = some "2") ∧
    ("0" : String) ≠ "2" := by
  refine ⟨by decide, by decide, by decide, by decide⟩

/-- Claim C9 (amended): `lastTen` is the order-preserving suffix of at most
ten messages (all of them when fewer); on the single-shot path the
response text is, for every capability, the text the capability
produces on exactly the last ten messages of the resolved session
(including the just-persisted inbound message, oldest first); on the
streaming path the capability instead receives the empty history. -/
theorem c9_amended_history :
    (∀ l : List ChatMessage, (lastTen l).length = min 10 l.length ∧
      l.take (l.length - 10) ++ lastTen l = l) ∧
    (∀ (gen : GenCap) (s : Storage) (ts : PipeTimes) (auth : String)
        (req : ChatQueryRequest) (user : JWTPayload) (sess : ChatSession) (s1 : Storage),
      verifyToken ts.tAuth auth = some user →
      chatQuerySchemaOk req = true →
      resolveSession s ts.tCreate user req = some (sess, s1) →
      restText (postChat gen s ts auth req).1 =
        some ((gen req.query
          (enrichContext req.query (req.context.getD {}) user.role "Acme Sustainability Corp")
          ((lastTen (getMessagesBySessionId
            (createChatMessage s1 ts.tU1 ts.tU2 (userInsert sess.id req.query)).2
            sess.id)).map (fun m => HistoryEntry.mk m.role m.content))).text)) ∧
    (∀ (gen : GenCap) (s : Storage) (ts : PipeTimes) (msg : WsChatQueryMsg)
        (user : JWTPayload),
      verifyToken ts.tAuth msg.token = some user →
      ∃ (sid mid : String) (md : Option MessageMetadata),
        (wsChatQuery gen s ts msg).1 =
          WsEnvelope.typing msg.sessionId ::
            ((streamTokens ((gen msg.query
                (enrichContext msg.query (msg.context.getD {}) user.role
                  "Acme Sustainability Corp") []).text)).map
              (fun t => WsEnvelope.token sid t) ++
              [WsEnvelope.complete sid mid
                ((gen msg.query (enrichContext msg.query (msg.context.getD {}) user.role
                  "Acme Sustainability Corp") []).suggestedPrompts) md])) := by
  refine ⟨?_, ?_, ?_⟩
  · intro l
    constructor
    · simp [lastTen, List.length_drop]
      omega
    · simp [lastTen, List.take_append_drop]
  · intro gen s ts auth req user sess s1 hv hq hr
    simp only [postChat, hv, hq, hr, Bool.not_true, Bool.false_eq_true, if_false,
      formatResponse, restText]
  · intro gen s ts msg user h
    rcases hr : wsResolveSession s ts.tCreate user msg with ⟨sess, s1⟩
    simp only [wsChatQuery, h, hr, formatResponse, createChatMessage]
    exact ⟨_, _, _, rfl⟩

/-- Witness for C9: at a concrete single-shot run on a session holding one
message, the capability sees the two-message history. -/
theorem c9_amended_witness :
    restText (postChat histGen storeB timesB "Bearer tok"
        { sessionId := some "sess-B", query := "next" }).1 = some "2" :=
  (c9_amended_history.2.1 histGen storeB timesB "Bearer tok"
      { sessionId := some "sess-B", query := "next" } (mockPayload 2) sessB storeB
      (by decide) (by decide) (by decide)).trans (by decide)
